import Mathlib

/-! Shallow embedding of src/app.py, a batch payment submitter for the
Stellar network.  Amounts are modelled as exact rationals; the Horizon
gateway is modelled as an oracle that yields, for each attempt, the
freshly fetched account sequence number, the recommended base fee, and
the outcome of the submission (a normal response dictionary or a raised
exception).  The recursive retry controller is embedded with explicit
fuel; running out of fuel marks a run that has not yet reached a
terminal state. -/

namespace App

/-- The value found under the result_codes key of an exception's extras
dictionary: either itself a dictionary with an optional transaction
entry, or some non-dictionary value (isinstance check fails). -/
inductive ResultCodes where
  | dict (transaction : Option String)
  | nonDict
deriving DecidableEq

/-- The extras attribute of a caught exception: either the value None,
or a dictionary whose result_codes key may be absent. -/
inductive ExtrasVal where
  | isNone
  | dict (result_codes : Option ResultCodes)
deriving DecidableEq

/-- A caught Python exception as probed by the handler in src/app.py
lines 94-131.  A field of value none models an ABSENT attribute, so
that accessing it raises AttributeError; errStr models str(e). -/
structure PyError where
  status : Option Nat
  extras : Option ExtrasVal
  errStr : String
deriving DecidableEq

/-- Result of one call to server.submit_transaction inside the try
block: either a normal response dictionary (with an optional successful
field and its raw textual form), or a raised exception.  A raised
exception also covers local failures inside the try block, such as an
invalid amount. -/
inductive GatewayResponse where
  | ok (successful : Option Bool) (raw : String)
  | exc (e : PyError)
deriving DecidableEq

/-- What the gateway yields for one attempt: the freshly loaded account
sequence number, the fetched recommended base fee, and the submission
outcome. -/
structure AttemptEnv where
  seq : Nat
  base_fee : Nat
  resp : GatewayResponse
deriving DecidableEq

/-- Round the fraction n over d (with d positive) to the nearest
integer, ties to even: the rounding used by Python float formatting.
The quotient f and remainder r are Euclidean, so 0 ≤ r < d and the
fraction is f + r over d; the tie test compares 2r with d. -/
def roundHalfEvenDiv (n d : ℤ) : ℤ :=
  let f := Int.ediv n d
  let r := Int.emod n d
  if 2 * r < d then f
  else if d < 2 * r then f + 1
  else if Int.emod f 2 = 0 then f else f + 1

/-- The amount scaled by ten million and rounded: the integer whose
digits make up the fixed-point rendering with 7 fractional digits. -/
def scaled7 (q : ℚ) : ℤ := roundHalfEvenDiv (q.num * 10000000) (q.den : ℤ)

/-- The seven fractional digit characters of a scaled value. -/
def frac7Chars (m : Nat) : List Char :=
  [Nat.digitChar (m / 1000000 % 10), Nat.digitChar (m / 100000 % 10),
   Nat.digitChar (m / 10000 % 10), Nat.digitChar (m / 1000 % 10),
   Nat.digitChar (m / 100 % 10), Nat.digitChar (m / 10 % 10),
   Nat.digitChar (m % 10)]

/-- Integer part (with sign) of the 7-digit fixed-point rendering. -/
def intPart7 (q : ℚ) : String :=
  (if scaled7 q < 0 then "-" else "") ++ toString ((scaled7 q).natAbs / 10000000)

/-- The seven fractional digits of the 7-digit fixed-point rendering. -/
def fracPart7 (q : ℚ) : List Char := frac7Chars ((scaled7 q).natAbs % 10000000)

/-- Embedding of the amount normalisation on src/app.py line 58: format
the amount in fixed point with exactly 7 fractional digits. -/
def formatAmount7 (q : ℚ) : String := intPart7 q ++ "." ++ String.mk (fracPart7 q)

/-- The rational value denoted by the formatted amount string; the
source rebinds the amount local and passes the formatted string to the
recursive call, so retries carry this value. -/
def reparse7 (q : ℚ) : ℚ := mkRat (scaled7 q) 10000000

/-- One write performed by log_result (src/app.py lines 42-53): cell is
the value stored in column D; success and message are the arguments the
caller passed (the source defaults message to the empty string). -/
structure SinkWrite where
  row : Nat
  success : Bool
  message : String
  cell : String
deriving DecidableEq

/-- Embedding of log_result: store the literal Success on success, the
message otherwise. -/
def log_result (row_index : Nat) (success : Bool) (message : String) : SinkWrite :=
  { row := row_index, success := success, message := message,
    cell := if success then "Success" else message }

/-- The terminal failure message of the congestion branch, src/app.py
line 126. -/
def busyMessage : String :=
  "Network is too busy at this time. Please try again this transaction at further time."

/-- Outcome of the except handler (or of the normal-response check) for
one attempt: a terminal log_result call, a sleep followed by a
recursive retry with the given fee floor argument, or an exception
escaping the handler. -/
inductive StepOut where
  | done (success : Bool) (message : String)
  | retry (sleep_units : Nat) (next_fee : Nat)
  | raised (msg : String)
deriving DecidableEq

/-- Evaluate the guard pattern of src/app.py lines 99-118: access
e.extras (AttributeError if the attribute is absent), require it to be
not None and its result_codes entry to be a dictionary, and return that
dictionary's transaction entry.  Returns Except.error on
AttributeError, Except.ok none when the guard chain is false. -/
def txResultCode (e : PyError) : Except String (Option String) :=
  match e.extras with
  | none => .error "AttributeError: extras"
  | some .isNone => .ok none
  | some (.dict none) => .ok none
  | some (.dict (some .nonDict)) => .ok none
  | some (.dict (some (.dict t))) => .ok t

/-- Embedding of the except handler, src/app.py lines 94-131.  Accessing
e.status on line 95 raises AttributeError when the attribute is absent;
the retry branches for 504, tx_bad_seq and tx_too_late call
send_transaction without the min_gas_fee argument, hence next fee 100
(the parameter default); the insufficient-fee branch doubles the floor
while the current floor is below 2000. -/
def handle_exception (e : PyError) (min_gas_fee : Nat) : StepOut :=
  match e.status with
  | none => .raised "AttributeError: status"
  | some st =>
    if st = 504 then .retry 5 100
    else
      match txResultCode e with
      | .error m => .raised m
      | .ok t =>
        if t = some "tx_bad_seq" then .retry 1 100
        else if t = some "tx_too_late" then .retry 1 100
        else if t = some "tx_insufficient_fee" then
          if min_gas_fee < 2000 then .retry 1 (2 * min_gas_fee)
          else .done false busyMessage
        else .done false ("Transaction failed: " ++ e.errStr)

/-- Classify the outcome of one attempt: a normal response is checked
with response.get successful defaulting to False (src/app.py lines
86-92) and never retried; an exception goes to the handler. -/
def classify_response (resp : GatewayResponse) (min_gas_fee : Nat) : StepOut :=
  match resp with
  | .ok successful raw =>
    if successful.getD false then .done true ""
    else .done false ("Error - " ++ raw)
  | .exc e => handle_exception e min_gas_fee

/-- Record of one submission attempt: its index, the sequence number
loaded for it, the fee floor argument, the effective fee max of the
fetched base fee and the floor, and the formatted amount submitted. -/
structure AttemptRec where
  attempt_index : Nat
  sequence : Nat
  fee_floor : Nat
  effective_fee : Nat
  amount_str : String
deriving DecidableEq

/-- Observable trace of a retry run: attempts in order, sleeps in
time-units between them, and the log_result writes performed. -/
structure Trace where
  attempts : List AttemptRec
  sleeps : List Nat
  writes : List SinkWrite
deriving DecidableEq

/-- How a retry run ends: a terminal log_result call with the given
success flag, fuel exhaustion (the run is still looping), or an
exception escaping the handler. -/
inductive RunResult where
  | terminal (success : Bool)
  | fuelOut
  | uncaught (msg : String)
deriving DecidableEq

/-- Embedding of send_transaction, src/app.py lines 55-131, with
explicit fuel bounding the recursion depth.  Each attempt formats the
amount, loads the sequence number and base fee fresh from the oracle,
takes the effective fee as the max of base fee and floor, submits, and
classifies the outcome; retries recurse with the formatted amount and
the handler's fee floor argument. -/
def send_transaction (oracle : Nat → AttemptEnv) (row_index : Nat) :
    ℚ → Nat → Nat → Nat → Trace × RunResult
  | _, _, _, 0 => (⟨[], [], []⟩, .fuelOut)
  | amount, min_gas_fee, attempt, fuel + 1 =>
    let env := oracle attempt
    let effective_fee := max env.base_fee min_gas_fee
    let a0 : AttemptRec :=
      ⟨attempt, env.seq, min_gas_fee, effective_fee, formatAmount7 amount⟩
    match classify_response env.resp min_gas_fee with
    | .done s m => (⟨[a0], [], [log_result row_index s m]⟩, .terminal s)
    | .retry slp next_fee =>
      let r := send_transaction oracle row_index (reparse7 amount) next_fee (attempt + 1) fuel
      (⟨a0 :: r.1.attempts, slp :: r.1.sleeps, r.1.writes⟩, r.2)
    | .raised m => (⟨[a0], [], []⟩, .uncaught m)

/-- Status of the whole row loop: ran to completion and saved the
workbook, crashed on an uncaught exception, or ran out of fuel inside a
row's retry loop. -/
inductive PipeStatus where
  | completed
  | crashed (msg : String)
  | fuelOut
deriving DecidableEq

/-- Result of the row loop of src/app.py lines 137-147: accumulated
writes, 1-based indices of the rows actually submitted, how the loop
ended, and whether workbook.save on line 147 was reached. -/
structure PipeResult where
  writes : List SinkWrite
  submitted : List Nat
  status : PipeStatus
  saved : Bool
deriving DecidableEq

/-- Embedding of the row loop: iterate rows in order with 1-based
indices, break at the first row with an empty destination, run each
other row's retry loop to its end, and stop the whole process if an
exception escapes send_transaction. -/
def process_rows (oracle : Nat → Nat → AttemptEnv) (fuel : Nat) :
    Nat → List (String × ℚ) → PipeResult
  | _, [] => ⟨[], [], .completed, true⟩
  | row_index, (dest, amt) :: rest =>
    if dest = "" then ⟨[], [], .completed, true⟩
    else
      let r := send_transaction (oracle row_index) row_index amt 100 0 fuel
      match r.2 with
      | .uncaught m => ⟨r.1.writes, [row_index], .crashed m, false⟩
      | .fuelOut => ⟨r.1.writes, [row_index], .fuelOut, false⟩
      | .terminal _ =>
        let q := process_rows oracle fuel (row_index + 1) rest
        ⟨r.1.writes ++ q.writes, row_index :: q.submitted, q.status, q.saved⟩

/-- Run the whole pipeline from row index 1, as the enumerate call on
line 137 does. -/
def run_pipeline (oracle : Nat → Nat → AttemptEnv) (rows : List (String × ℚ))
    (fuel : Nat) : PipeResult :=
  process_rows oracle fuel 1 rows

/-- Submitted row indices as the spec words them: rows are taken in
file order up to, and not including, the first row whose destination
address is empty; that row and all later rows are never submitted. -/
def sentinel_rows_spec : Nat → List (String × ℚ) → List Nat
  | _, [] => []
  | i, (dest, _) :: rest =>
    if dest = "" then [] else i :: sentinel_rows_spec (i + 1) rest

end App

namespace App

/-- A rejection exception carrying the tx_insufficient_fee result code. -/
def insuffE : PyError :=
  ⟨some 400, some (.dict (some (.dict (some "tx_insufficient_fee")))), "tx_insufficient_fee"⟩

/-- A rejection exception carrying the tx_bad_seq result code. -/
def badSeqE : PyError :=
  ⟨some 400, some (.dict (some (.dict (some "tx_bad_seq")))), "tx_bad_seq"⟩

/-- A rejection exception carrying the tx_too_late result code. -/
def tooLateE : PyError :=
  ⟨some 400, some (.dict (some (.dict (some "tx_too_late")))), "tx_too_late"⟩

/-- A transport error with HTTP status 504. -/
def e504 : PyError := ⟨some 504, some .isNone, "504 Gateway Timeout"⟩

/-- A local exception, such as the ValueError raised by float on a
malformed amount: it has neither a status nor an extras attribute. -/
def valueErrorE : PyError := ⟨none, none, "could not convert string to float"⟩

/-- Gateway that rejects every attempt with tx_insufficient_fee. -/
def oracleInsuff : Nat → AttemptEnv := fun _ => ⟨42, 100, .exc insuffE⟩

/-- Gateway that fails every attempt with a 504 transport error. -/
def oracle504 : Nat → AttemptEnv := fun _ => ⟨42, 100, .exc e504⟩

/-- Gateway that rejects every attempt with tx_bad_seq. -/
def oracleBadSeq : Nat → AttemptEnv := fun _ => ⟨42, 100, .exc badSeqE⟩

/-- Gateway that rejects every attempt with tx_too_late. -/
def oracleTooLate : Nat → AttemptEnv := fun _ => ⟨42, 100, .exc tooLateE⟩

/-- Gateway for the C2 counterexample: insufficient fee, then bad
sequence, then acceptance. -/
def oracleC2 : Nat → AttemptEnv := fun n =>
  if n = 0 then ⟨42, 100, .exc insuffE⟩
  else if n = 1 then ⟨43, 100, .exc badSeqE⟩
  else ⟨44, 100, .ok (some true) "accepted"⟩

/-- Gateway for the C6 scenario: bad sequence with sequence number 5,
then acceptance with refreshed sequence number 6. -/
def oracleC6 : Nat → AttemptEnv := fun n =>
  if n = 0 then ⟨5, 100, .exc badSeqE⟩ else ⟨6, 100, .ok (some true) "accepted"⟩

/-- Gateway for the C9 scenario: one 504 transport error, then
acceptance. -/
def oracleC9 : Nat → AttemptEnv := fun n =>
  if n = 0 then ⟨7, 100, .exc e504⟩ else ⟨8, 100, .ok (some true) "accepted"⟩

/-- Per-row gateway for the C3 failing input: row 2 raises a local
ValueError, every other row is accepted. -/
def oracleC3 : Nat → Nat → AttemptEnv := fun r _ =>
  if r = 2 then ⟨10, 100, .exc valueErrorE⟩ else ⟨10, 100, .ok (some true) "accepted"⟩

/-- Per-row gateway that accepts every attempt of every row. -/
def oracleAccept : Nat → Nat → AttemptEnv := fun _ _ => ⟨10, 100, .ok (some true) "accepted"⟩

/-- Single-row gateway that accepts the first attempt. -/
def oracleAcceptOne : Nat → AttemptEnv := fun _ => ⟨10, 100, .ok (some true) "accepted"⟩

/-- Gateway for the C10 scenario: the submission call returns normally
with successful false and a retryable result code in the response body. -/
def oracleC10 : Nat → AttemptEnv := fun _ =>
  ⟨9, 250, .ok (some false) "successful false, result_codes transaction tx_insufficient_fee"⟩

theorem string_append_ne_empty (s t : String) (h : s ≠ "") : s ++ t ≠ "" := by
  rcases s with ⟨ds⟩
  rcases t with ⟨ts⟩
  intro he
  apply h
  have hl : ds ++ ts = [] := congrArg String.data he
  have hds : ds = [] := (List.append_eq_nil.mp hl).1
  subst hds
  rfl

theorem classify_done_success_iff (resp : GatewayResponse) (fee : Nat) (s : Bool) (m : String)
    (h : classify_response resp fee = .done s m) : (s = true ↔ m = "") := by
  rcases resp with ⟨s0, raw⟩ | ⟨e⟩
  · simp only [classify_response] at h
    split at h
    · injection h with h1 h2
      subst h1; subst h2
      simp
    · injection h with h1 h2
      subst h1; subst h2
      simp only [Bool.false_eq_true, false_iff]
      exact string_append_ne_empty "Error - " raw (by decide)
  · rcases hst : e.status with _ | st <;>
      simp only [classify_response, handle_exception, hst] at h
    · exact StepOut.noConfusion h
    · split at h
      · exact StepOut.noConfusion h
      · split at h
        · exact StepOut.noConfusion h
        · split at h
          · exact StepOut.noConfusion h
          · split at h
            · exact StepOut.noConfusion h
            · split at h
              · split at h
                · exact StepOut.noConfusion h
                · injection h with h1 h2
                  subst h1; subst h2
                  simp only [Bool.false_eq_true, false_iff]
                  decide
              · injection h with h1 h2
                subst h1; subst h2
                simp only [Bool.false_eq_true, false_iff]
                exact string_append_ne_empty "Transaction failed: " e.errStr (by decide)

theorem attempts_fresh :
    ∀ (fuel : Nat) (oracle : Nat → AttemptEnv) (row : Nat) (q : ℚ) (fee attempt : Nat),
      ∀ a ∈ (send_transaction oracle row q fee attempt fuel).1.attempts,
        a.sequence = (oracle a.attempt_index).seq ∧
        a.effective_fee = max (oracle a.attempt_index).base_fee a.fee_floor := by
  intro fuel
  induction fuel with
  | zero => intro oracle row q fee attempt a ha; simp [send_transaction] at ha
  | succ n ih =>
    intro oracle row q fee attempt a ha
    rcases hc : classify_response (oracle attempt).resp fee with ⟨s, m⟩ | ⟨slp, nf⟩ | ⟨em⟩ <;>
      simp only [send_transaction, hc] at ha
    · simp at ha
      subst ha
      exact ⟨rfl, rfl⟩
    · rcases List.mem_cons.mp ha with h0 | hrest
      · subst h0
        exact ⟨rfl, rfl⟩
      · exact ih oracle row (reparse7 q) nf (attempt + 1) a hrest
    · simp at ha
      subst ha
      exact ⟨rfl, rfl⟩

end App

namespace App

theorem digitChar_isDigit_of_lt (m : Nat) (hm : m < 10) : (Nat.digitChar m).isDigit = true := by
  interval_cases m <;> decide

/-- C1 counterexample: against a gateway that always rejects with
tx_insufficient_fee, the run from the default floor 100 makes a sixth
attempt whose effective fee is 3200, refuting the claim that no
submission attempt is ever made with a fee of at least 2000 stroops. -/
theorem C1_counterexample :
    (send_transaction oracleInsuff 1 1 100 0 10).1.attempts.map AttemptRec.effective_fee
        = [100, 200, 400, 800, 1600, 3200] ∧
    ((send_transaction oracleInsuff 1 1 100 0 10).1.attempts.map
        AttemptRec.effective_fee).contains 3200 = true := by
  decide

/-- C1 amended: under persistent tx_insufficient_fee rejections from
fee floor 100, the floors attempted are 100 times 2 to the i for i up
to 5, each retry waits 1 time-unit, the guard doubles the floor while
the current floor is below 2000, so exactly one attempt (floor 3200) is
made with an effective fee of at least 2000, and the row then
terminates as a permanent failure whose message contains busy. -/
theorem C1_fee_escalation (fuel : Nat) (hf : 6 ≤ fuel) :
    send_transaction oracleInsuff 1 1 100 0 fuel =
      (⟨[⟨0, 42, 100, 100, "1.0000000"⟩, ⟨1, 42, 200, 200, "1.0000000"⟩,
         ⟨2, 42, 400, 400, "1.0000000"⟩, ⟨3, 42, 800, 800, "1.0000000"⟩,
         ⟨4, 42, 1600, 1600, "1.0000000"⟩, ⟨5, 42, 3200, 3200, "1.0000000"⟩],
        [1, 1, 1, 1, 1],
        [log_result 1 false busyMessage]⟩,
       .terminal false) ∧
    ((send_transaction oracleInsuff 1 1 100 0 fuel).1.attempts.filter
        (fun a => 2000 ≤ a.effective_fee)).length = 1 ∧
    busyMessage =
      "Network is too " ++ "busy" ++
        " at this time. Please try again this transaction at further time." := by
  obtain ⟨k, rfl⟩ : ∃ k, fuel = k + 6 := ⟨fuel - 6, by omega⟩
  exact ⟨rfl, rfl, rfl⟩

/-- C1 witness: the amended statement evaluated with fuel 10. -/
theorem C1_witness :
    send_transaction oracleInsuff 1 1 100 0 10 =
      (⟨[⟨0, 42, 100, 100, "1.0000000"⟩, ⟨1, 42, 200, 200, "1.0000000"⟩,
         ⟨2, 42, 400, 400, "1.0000000"⟩, ⟨3, 42, 800, 800, "1.0000000"⟩,
         ⟨4, 42, 1600, 1600, "1.0000000"⟩, ⟨5, 42, 3200, 3200, "1.0000000"⟩],
        [1, 1, 1, 1, 1],
        [log_result 1 false busyMessage]⟩,
       .terminal false) ∧
    ((send_transaction oracleInsuff 1 1 100 0 10).1.attempts.filter
        (fun a => 2000 ≤ a.effective_fee)).length = 1 ∧
    busyMessage =
      "Network is too " ++ "busy" ++
        " at this time. Please try again this transaction at further time." :=
  C1_fee_escalation 10 (by norm_num)

/-- C2 counterexample: an insufficient-fee rejection escalates the
floor to 200, but the retry after the following tx_bad_seq rejection
runs at floor 100 again, refuting the claim that these retries keep
whatever floor the failing attempt had. -/
theorem C2_counterexample :
    (send_transaction oracleC2 1 1 100 0 10).1.attempts.map AttemptRec.fee_floor
        = [100, 200, 100] ∧
    (send_transaction oracleC2 1 1 100 0 10).2 = .terminal true := by
  decide

/-- C2 amended: every retry triggered by a 504 transport error, a
tx_bad_seq rejection or a tx_too_late rejection passes the default fee
floor 100 to the next attempt (the source calls send_transaction
without the min_gas_fee argument), whatever floor the failing attempt
used; the floor is therefore unchanged exactly when it was still the
initial 100. -/
theorem C2_default_floor_on_retry (e : PyError) (fee st : Nat) (hst : e.status = some st) :
    (st = 504 → handle_exception e fee = .retry 5 100) ∧
    (st ≠ 504 → txResultCode e = .ok (some "tx_bad_seq") →
      handle_exception e fee = .retry 1 100) ∧
    (st ≠ 504 → txResultCode e = .ok (some "tx_too_late") →
      handle_exception e fee = .retry 1 100) := by
  refine ⟨?_, ?_, ?_⟩
  · intro h504
    simp [handle_exception, hst, h504]
  · intro h504 hcode
    simp [handle_exception, hst, h504, hcode]
  · intro h504 hcode
    simp [handle_exception, hst, h504, hcode]

/-- C2 witness: the amended statement evaluated on a concrete
tx_bad_seq rejection at the escalated floor 777. -/
theorem C2_witness : handle_exception badSeqE 777 = .retry 1 100 :=
  (C2_default_floor_on_retry badSeqE 777 400 rfl).2.1 (by norm_num) rfl

/-- C3 evaluation at the failing input: a run over three non-empty rows
where row 2 raises a local exception without status and extras
attributes (like the ValueError from float on a malformed amount); the
handler itself raises AttributeError, the run crashes, row 3 is never
submitted, row 2 gets no failure message, and the workbook is never
saved, contradicting the claim that unclassified failures are recorded
and never propagated. -/
theorem C3_crash_on_unclassified_local_exception :
    run_pipeline oracleC3 [("A", 1), ("B", 1), ("C", 1)] 5 =
      ⟨[log_result 1 true ""], [1, 2], .crashed "AttributeError: status", false⟩ := by
  decide

/-- C4: the retry recursion terminates under persistent
tx_insufficient_fee rejections (the floor doubles from 100 and the run
reaches a terminal failure once fuel covers the six attempts), while
under a gateway persistently failing with 504, tx_bad_seq or
tx_too_late the run never reaches a terminal state however much fuel it
is given. -/
theorem C4_termination :
    (∀ fuel, 6 ≤ fuel → (send_transaction oracleInsuff 1 1 100 0 fuel).2 = .terminal false) ∧
    (∀ fuel attempt (q : ℚ), (send_transaction oracle504 1 q 100 attempt fuel).2 = .fuelOut) ∧
    (∀ fuel attempt (q : ℚ), (send_transaction oracleBadSeq 1 q 100 attempt fuel).2 = .fuelOut) ∧
    (∀ fuel attempt (q : ℚ), (send_transaction oracleTooLate 1 q 100 attempt fuel).2 = .fuelOut) := by
  refine ⟨?_, ?_, ?_, ?_⟩
  · intro fuel hf
    obtain ⟨k, rfl⟩ : ∃ k, fuel = k + 6 := ⟨fuel - 6, by omega⟩
    rfl
  · intro fuel
    induction fuel with
    | zero => intro attempt q; rfl
    | succ n ih => intro attempt q; exact ih (attempt + 1) (reparse7 q)
  · intro fuel
    induction fuel with
    | zero => intro attempt q; rfl
    | succ n ih => intro attempt q; exact ih (attempt + 1) (reparse7 q)
  · intro fuel
    induction fuel with
    | zero => intro attempt q; rfl
    | succ n ih => intro attempt q; exact ih (attempt + 1) (reparse7 q)

/-- C4 witness: the terminating branch evaluated with fuel 6 and the
non-terminating 504 branch evaluated with fuel 50. -/
theorem C4_witness :
    (send_transaction oracleInsuff 1 1 100 0 6).2 = .terminal false ∧
    (send_transaction oracle504 1 1 100 0 50).2 = .fuelOut :=
  ⟨C4_termination.1 6 (by norm_num), C4_termination.2.1 50 0 1⟩

/-- C5: against a gateway accepting every attempt, the rows submitted
by the loop are exactly the rows before the first one with an empty
destination, in file order with 1-based indices; in particular with
rows A, blank, B only row 1 is submitted. -/
theorem C5_sentinel_blank_row (oracle : Nat → Nat → AttemptEnv) (fuel : Nat)
    (hacc : ∀ r n, ∃ raw, (oracle r n).resp = .ok (some true) raw) (hf : 1 ≤ fuel) :
    (∀ rows i, (process_rows oracle fuel i rows).submitted = sentinel_rows_spec i rows) ∧
    (run_pipeline oracle [("A", 1), ("", 0), ("B", 2)] fuel).submitted = [1] := by
  obtain ⟨k, rfl⟩ : ∃ k, fuel = k + 1 := ⟨fuel - 1, by omega⟩
  have main : ∀ rows i,
      (process_rows oracle (k + 1) i rows).submitted = sentinel_rows_spec i rows := by
    intro rows
    induction rows with
    | nil => intro i; rfl
    | cons hd tl ih =>
      intro i
      obtain ⟨dest, amt⟩ := hd
      by_cases hd0 : dest = ""
      · simp [process_rows, hd0, sentinel_rows_spec]
      · obtain ⟨raw, hraw⟩ := hacc i 0
        have hsend : (send_transaction (oracle i) i amt 100 0 (k + 1)).2 = .terminal true := by
          simp [send_transaction, classify_response, hraw]
        simp [process_rows, hd0, sentinel_rows_spec, hsend, ih]
  refine ⟨main, ?_⟩
  rw [run_pipeline, main [("A", 1), ("", 0), ("B", 2)] 1]
  rfl

/-- C5 witness: the sentinel rule evaluated on the concrete row list
with an always-accepting gateway. -/
theorem C5_witness :
    (run_pipeline oracleAccept [("A", 1), ("", 0), ("B", 2)] 1).submitted = [1] :=
  (C5_sentinel_blank_row oracleAccept 1 (fun _ _ => ⟨"accepted", rfl⟩) (by norm_num)).2

/-- C6: every recorded attempt carries the sequence number the oracle
yields for exactly that attempt and the effective fee max of the base
fee fetched for that attempt and the current floor, so no attempt
reuses a stale value; in the scenario tx_bad_seq then accepted, the two
attempts use the distinct sequence numbers 5 and 6 and the row
succeeds. -/
theorem C6_fresh_sequence_per_attempt :
    (∀ (oracle : Nat → AttemptEnv) (row : Nat) (q : ℚ) (fee attempt fuel : Nat),
      ∀ a ∈ (send_transaction oracle row q fee attempt fuel).1.attempts,
        a.sequence = (oracle a.attempt_index).seq ∧
        a.effective_fee = max (oracle a.attempt_index).base_fee a.fee_floor) ∧
    (send_transaction oracleC6 1 1 100 0 10).1.attempts.map AttemptRec.sequence = [5, 6] ∧
    ((send_transaction oracleC6 1 1 100 0 10).1.attempts.map AttemptRec.sequence).Nodup ∧
    (send_transaction oracleC6 1 1 100 0 10).2 = .terminal true := by
  refine ⟨?_, by decide, by decide, by decide⟩
  intro oracle row q fee attempt fuel
  exact attempts_fresh fuel oracle row q fee attempt

/-- C6 witness: the freshness statement evaluated on the first attempt
record of the tx_bad_seq then accepted scenario. -/
theorem C6_witness :
    (⟨0, 5, 100, 100, "1.0000000"⟩ : AttemptRec).sequence = (oracleC6 0).seq ∧
    (⟨0, 5, 100, 100, "1.0000000"⟩ : AttemptRec).effective_fee
        = max (oracleC6 0).base_fee (⟨0, 5, 100, 100, "1.0000000"⟩ : AttemptRec).fee_floor :=
  C6_fresh_sequence_per_attempt.1 oracleC6 1 1 100 0 10 ⟨0, 5, 100, 100, "1.0000000"⟩ (by decide)

/-- C7: a retry run writes through log_result exactly once, when and
only when it reaches a terminal state: the write is for the processed
row, its message is empty precisely when the row succeeded, and the
cell text is the literal Success on success and the failure message
otherwise; a run still retrying or crashing has written nothing. -/
theorem C7_single_terminal_write :
    ∀ (fuel : Nat) (oracle : Nat → AttemptEnv) (row : Nat) (q : ℚ) (fee attempt : Nat),
      (∀ s, (send_transaction oracle row q fee attempt fuel).2 = .terminal s →
        ∃ m, (send_transaction oracle row q fee attempt fuel).1.writes = [log_result row s m] ∧
          (s = true ↔ m = "") ∧
          (log_result row s m).cell = if s = true then "Success" else m) ∧
      ((send_transaction oracle row q fee attempt fuel).2 = .fuelOut →
        (send_transaction oracle row q fee attempt fuel).1.writes = []) ∧
      (∀ em, (send_transaction oracle row q fee attempt fuel).2 = .uncaught em →
        (send_transaction oracle row q fee attempt fuel).1.writes = []) := by
  intro fuel
  induction fuel with
  | zero =>
    intro oracle row q fee attempt
    refine ⟨?_, ?_, ?_⟩
    · intro s hs
      exact absurd hs (by simp [send_transaction])
    · intro _
      rfl
    · intro em hem
      exact absurd hem (by simp [send_transaction])
  | succ n ih =>
    intro oracle row q fee attempt
    rcases hc : classify_response (oracle attempt).resp fee with ⟨s, m⟩ | ⟨slp, nf⟩ | ⟨em⟩ <;>
      simp only [send_transaction, hc]
    · refine ⟨?_, ?_, ?_⟩
      · intro s' hs'
        injection hs' with hss
        subst hss
        exact ⟨m, rfl, classify_done_success_iff _ _ _ _ hc, rfl⟩
      · intro hbad
        exact RunResult.noConfusion hbad
      · intro em hbad
        exact RunResult.noConfusion hbad
    · exact ih oracle row (reparse7 q) nf (attempt + 1)
    · refine ⟨?_, ?_, ?_⟩
      · intro s' hbad
        exact RunResult.noConfusion hbad
      · intro hbad
        exact RunResult.noConfusion hbad
      · intro em' _
        trivial

/-- C7 witness: the write characterisation evaluated on a first-attempt
acceptance: the single write is the Success marker with empty message. -/
theorem C7_witness :
    (send_transaction oracleAcceptOne 2 1 100 0 3).1.writes = [log_result 2 true ""] := by
  obtain ⟨m, hm, hiff, hcell⟩ :=
    (C7_single_terminal_write 3 oracleAcceptOne 2 1 100 0).1 true (by decide)
  have hme : m = "" := hiff.mp rfl
  subst hme
  exact hm

/-- C8: the amount normalisation always produces an integer part, a
dot, and exactly 7 fractional digit characters; the amount 1 formats as
1.0000000 and the amount 2.12345678 rounds to 2.1234568. -/
theorem C8_amount_seven_digits :
    (∀ q : ℚ, formatAmount7 q = intPart7 q ++ "." ++ String.mk (fracPart7 q) ∧
      (fracPart7 q).length = 7 ∧ ∀ c ∈ fracPart7 q, c.isDigit = true) ∧
    formatAmount7 1 = "1.0000000" ∧
    formatAmount7 (mkRat 212345678 100000000) = "2.1234568" := by
  refine ⟨?_, by decide, by decide⟩
  intro q
  refine ⟨rfl, rfl, ?_⟩
  intro c hc
  simp only [fracPart7, frac7Chars, List.mem_cons, List.not_mem_nil, or_false] at hc
  rcases hc with h | h | h | h | h | h | h <;> subst h <;>
    exact digitChar_isDigit_of_lt _ (Nat.mod_lt _ (by norm_num))

/-- C8 witness: the shape statement evaluated at the amount 1. -/
theorem C8_witness : (fracPart7 1).length = 7 ∧ Char.isDigit '0' = true :=
  ⟨(C8_amount_seven_digits.1 1).2.1, (C8_amount_seven_digits.1 1).2.2 '0' (by decide)⟩

/-- C9: whenever the first attempt fails with a 504 transport error and
the second is accepted, the run sleeps exactly once, for 5 time-units
(hence waits at least 5 time-units between the two attempts), and the
row terminates successfully. -/
theorem C9_transport_error_wait (oracle : Nat → AttemptEnv) (e : PyError) (raw : String)
    (q : ℚ) (row fuel : Nat) (h0 : (oracle 0).resp = .exc e) (hst : e.status = some 504)
    (h1 : (oracle 1).resp = .ok (some true) raw) (hf : 2 ≤ fuel) :
    (send_transaction oracle row q 100 0 fuel).1.sleeps = [5] ∧
    5 ≤ ((send_transaction oracle row q 100 0 fuel).1.sleeps).sum ∧
    (send_transaction oracle row q 100 0 fuel).2 = .terminal true := by
  obtain ⟨k, rfl⟩ : ∃ k, fuel = k + 2 := ⟨fuel - 2, by omega⟩
  have hrun : (send_transaction oracle row q 100 0 (k + 2)).1.sleeps = [5] ∧
      (send_transaction oracle row q 100 0 (k + 2)).2 = .terminal true := by
    constructor <;>
      simp [send_transaction, classify_response, handle_exception, h0, h1, hst]
  refine ⟨hrun.1, ?_, hrun.2⟩
  rw [hrun.1]
  norm_num

/-- C9 witness: the wait statement evaluated on the concrete 504 then
accepted gateway. -/
theorem C9_witness :
    (send_transaction oracleC9 1 1 100 0 10).1.sleeps = [5] ∧
    5 ≤ ((send_transaction oracleC9 1 1 100 0 10).1.sleeps).sum ∧
    (send_transaction oracleC9 1 1 100 0 10).2 = .terminal true :=
  C9_transport_error_wait oracleC9 e504 "accepted" 1 1 10 rfl rfl rfl (by norm_num)

/-- C10: when the gateway call returns normally and the successful
field is absent or false, the run performs exactly one attempt, sleeps
never, and immediately records the permanent failure message Error
followed by the raw response, with no retry whatever result codes the
response body carries. -/
theorem C10_returned_response_never_retried (oracle : Nat → AttemptEnv) (q : ℚ)
    (row fee attempt fuel : Nat) (s : Option Bool) (raw : String)
    (h : (oracle attempt).resp = .ok s raw) (hs : s.getD false = false) (hf : 1 ≤ fuel) :
    send_transaction oracle row q fee attempt fuel =
      (⟨[⟨attempt, (oracle attempt).seq, fee, max (oracle attempt).base_fee fee,
          formatAmount7 q⟩],
        [], [log_result row false ("Error - " ++ raw)]⟩, .terminal false) := by
  obtain ⟨k, rfl⟩ : ∃ k, fuel = k + 1 := ⟨fuel - 1, by omega⟩
  simp [send_transaction, classify_response, h, hs]

/-- C10 witness: the no-retry statement evaluated on a returned
response that is unsuccessful and carries the tx_insufficient_fee code
in its body. -/
theorem C10_witness :
    send_transaction oracleC10 3 1 100 0 5 =
      (⟨[⟨0, 9, 100, 250, formatAmount7 1⟩], [],
        [log_result 3 false
          ("Error - " ++ "successful false, result_codes transaction tx_insufficient_fee")]⟩,
       .terminal false) :=
  C10_returned_response_never_retried oracleC10 1 3 100 0 5 (some false)
    "successful false, result_codes transaction tx_insufficient_fee" rfl rfl (by norm_num)

end App
